import Mathlib

set_option autoImplicit false

/-!
Shallow embedding of the AMP runtime's Resource layout state machine
(`src/service/resource.js`), the `withinViewportMultiplier` admission test,
the VideoManager v1/v2 `VideoEntry` visibility and playing-state logic
(`src/service/video-manager-impl.js`, `src/service/video-manager-v2-impl.js`)
and the `LazyObservable` helper, together with theorems settling the frozen
claims about them.

Conventions: JavaScript numbers are modelled as `ℚ` (the arithmetic involved
is exact); DOM-dependent queries (viewport rects, the ancestor fixed-position
walk, `isDisplayed`, element callbacks) are passed in as explicit inputs;
promises are modelled by identifiers so that "returns the same promise
instance" is expressible; `dev().assert` is a logging no-op in production and
is modelled as such.
-/

namespace AmpModel

/-- A layout rectangle as produced by `layoutRectLtwh` (left/top/width/height,
with `right`/`bottom` derived). -/
structure LayoutRect where
  left : ℚ
  top : ℚ
  width : ℚ
  height : ℚ
  deriving DecidableEq, Repr

def LayoutRect.right (r : LayoutRect) : ℚ := r.left + r.width

def LayoutRect.bottom (r : LayoutRect) : ℚ := r.top + r.height

/-- `moveLayoutRect(rect, dx, dy)` from `layout-rect.js`. -/
def moveLayoutRect (r : LayoutRect) (dx dy : ℚ) : LayoutRect :=
  { r with left := r.left + dx, top := r.top + dy }

/-- `ResourceState` enum from `resource.js`. -/
inductive ResourceState where
  | NOT_BUILT
  | NOT_LAID_OUT
  | READY_FOR_LAYOUT
  | LAYOUT_SCHEDULED
  | LAYOUT_COMPLETE
  | LAYOUT_FAILED
  deriving DecidableEq, Repr

/-- Numeric value of each state as declared in the source enum.  The claims'
progress order `NOT_BUILT < NOT_LAID_OUT < READY_FOR_LAYOUT <
LAYOUT_SCHEDULED < {LAYOUT_COMPLETE, LAYOUT_FAILED}` ranks the two terminal
states equally. -/
def stateRank : ResourceState → Nat
  | .NOT_BUILT => 0
  | .NOT_LAID_OUT => 1
  | .READY_FOR_LAYOUT => 2
  | .LAYOUT_SCHEDULED => 3
  | .LAYOUT_COMPLETE => 4
  | .LAYOUT_FAILED => 4

/-- The element-side inputs a `Resource` consults.  `layoutCallback` is the
element's layout hook: `.error e` models a synchronous throw, `.ok u` models
returning a promise. -/
structure AmpElement where
  isUpgraded : Bool
  isRelayoutNeeded : Bool
  layoutCallback : Except Nat Unit
  deriving Repr

/-- Mutable state of a `Resource` (the fields of the source class that the
layout lifecycle reads and writes).  Promises are identified by numbers drawn
from `nextPromiseId`; `loadResolverPresent`/`loadResolveCalls` model the
`loadPromiseResolve_` resolver captured in the constructor and how many times
it has been invoked. -/
structure Resource where
  state : ResourceState
  layoutCount : Nat
  lastLayoutError : Option Nat
  layoutPromise : Option Nat
  nextPromiseId : Nat
  layoutBox : LayoutRect
  initialLayoutBox : Option LayoutRect
  isFixed : Bool
  isMeasureRequested : Bool
  loadResolverPresent : Bool
  loadResolveCalls : Nat
  loadedOnce : Bool
  deriving DecidableEq, Repr

/-- `layoutRectLtwh(-10000, -10000, 0, 0)`, the constructor's initial box. -/
def initialBox : LayoutRect := ⟨-10000, -10000, 0, 0⟩

/-- The `Resource` constructor: state is `NOT_LAID_OUT` when the element is
already built, `NOT_BUILT` otherwise; the load-promise resolver is captured
and not yet called. -/
def mkResource (elementIsBuilt : Bool) : Resource where
  state := if elementIsBuilt then .NOT_LAID_OUT else .NOT_BUILT
  layoutCount := 0
  lastLayoutError := none
  layoutPromise := none
  nextPromiseId := 0
  layoutBox := initialBox
  initialLayoutBox := none
  isFixed := false
  isMeasureRequested := false
  loadResolverPresent := true
  loadResolveCalls := 0
  loadedOnce := false

/-- `hasBeenMeasured()`: whether `initialLayoutBox_` has been set. -/
def Resource.hasBeenMeasured (r : Resource) : Bool := r.initialLayoutBox.isSome

/-- What `startLayout()` hands back to its caller. -/
inductive StartLayoutResult where
  /-- the cached `layoutPromise_` instance was returned -/
  | existing (p : Nat)
  /-- `Promise.resolve()` -/
  | resolved
  /-- `Promise.reject(lastLayoutError_)` -/
  | rejected (e : Option Nat)
  /-- `layoutCallback` threw synchronously; `Promise.reject(e)` -/
  | rejectedSync (e : Nat)
  /-- a fresh layout was started; the new `layoutPromise_` was returned -/
  | inFlight (p : Nat)
  deriving DecidableEq, Repr

/-- `Resource.startLayout()`.  Besides the updated resource and the returned
promise, the third component records whether `element.layoutCallback()` was
invoked during the call. -/
def startLayout (el : AmpElement) (r : Resource) :
    Resource × StartLayoutResult × Bool :=
  match r.layoutPromise with
  | some p => (r, .existing p, false)
  | none =>
    if r.state = .LAYOUT_COMPLETE then (r, .resolved, false)
    else if r.state = .LAYOUT_FAILED then (r, .rejected r.lastLayoutError, false)
    -- dev().assert(state != NOT_BUILT) / dev().assert(isDisplayed()):
    -- production no-ops.
    else if 0 < r.layoutCount ∧ ¬ el.isRelayoutNeeded then
      ({ r with state := .LAYOUT_COMPLETE }, .resolved, false)
    else
      let r1 := { r with layoutCount := r.layoutCount + 1,
                         state := .LAYOUT_SCHEDULED }
      match el.layoutCallback with
      | .error e => (r1, .rejectedSync e, true)
      | .ok _ =>
        let p := r1.nextPromiseId
        ({ r1 with layoutPromise := some p, nextPromiseId := p + 1 },
         .inFlight p, true)

/-- `Resource.layoutComplete_(success, opt_reason)`: resolves the one-time
load promise (if its resolver is still present) before branching on success,
clears the in-flight promise, and records the terminal state and error. -/
def layoutComplete (success : Bool) (reason : Option Nat) (r : Resource) :
    Resource :=
  let r0 :=
    if r.loadResolverPresent then
      { r with loadResolveCalls := r.loadResolveCalls + 1,
               loadResolverPresent := false }
    else r
  { r0 with layoutPromise := none,
            loadedOnce := true,
            state := if success then .LAYOUT_COMPLETE else .LAYOUT_FAILED,
            lastLayoutError := reason }

/-- The DOM-supplied inputs of one `measure()` call: the fresh viewport rect
for the element, the outcome of the fixed-position ancestor walk, the current
scroll offsets, and whether the placeholder special case at the top of
`measure()` returns early. -/
structure MeasureEnv where
  newBox : LayoutRect
  isFixedNow : Bool
  scrollLeft : ℚ
  scrollTop : ℚ
  placeholderBlocked : Bool
  deriving DecidableEq, Repr

/-- The box `measure()` ends up storing: the viewport rect, shifted by the
scroll offsets when the element is fixed-position. -/
def measuredBox (env : MeasureEnv) : LayoutRect :=
  if env.isFixedNow then
    moveLayoutRect env.newBox (-env.scrollLeft) (-env.scrollTop)
  else env.newBox

/-- `Resource.measure()`.  Note that `left` is deliberately absent from the
change test guarding the transition to `READY_FOR_LAYOUT`. -/
def measure (env : MeasureEnv) (el : AmpElement) (r : Resource) : Resource :=
  if env.placeholderBlocked then r
  else
    let box := measuredBox env
    let oldBox := r.layoutBox
    let st :=
      if r.state = .NOT_LAID_OUT ∨ oldBox.top ≠ box.top ∨
          oldBox.width ≠ box.width ∨ oldBox.height ≠ box.height then
        if el.isUpgraded ∧ r.state ≠ .NOT_BUILT ∧
            (r.state = .NOT_LAID_OUT ∨ el.isRelayoutNeeded) then
          ResourceState.READY_FOR_LAYOUT
        else r.state
      else r.state
    { r with isMeasureRequested := false,
             layoutBox := box,
             isFixed := env.isFixedNow,
             state := st,
             initialLayoutBox :=
               if r.initialLayoutBox.isSome then r.initialLayoutBox
               else some box }

/-- `Resource.layoutScheduled(scheduleTime)`. -/
def layoutScheduled (r : Resource) : Resource :=
  { r with state := .LAYOUT_SCHEDULED }

/-- `Resource.layoutCanceled()`. -/
def layoutCanceled (r : Resource) : Resource :=
  { r with state :=
      if r.hasBeenMeasured then .READY_FOR_LAYOUT else .NOT_LAID_OUT }

/-- `Resource.unlayout()`, with the element's `unlayoutCallback()` return
value supplied as an input. -/
def unlayout (unlayoutCallbackResult : Bool) (r : Resource) : Resource :=
  if r.state = .NOT_BUILT ∨ r.state = .NOT_LAID_OUT then r
  else if unlayoutCallbackResult then
    { r with state := .NOT_LAID_OUT, layoutCount := 0, layoutPromise := none }
  else r

/-- The tail of `Resource.build()`'s success callback: state moves to
`READY_FOR_LAYOUT` when already measured, else `NOT_LAID_OUT`. -/
def buildDone (r : Resource) : Resource :=
  { r with state :=
      if r.hasBeenMeasured then .READY_FOR_LAYOUT else .NOT_LAID_OUT }

/-- One state-mutating operation of the `Resource` lifecycle, with the
DOM/element inputs it consumes. -/
inductive ROp where
  | buildDoneOp
  | measureOp (env : MeasureEnv) (el : AmpElement)
  | layoutScheduledOp
  | layoutCanceledOp
  | startLayoutOp (el : AmpElement)
  | layoutCompleteOp (success : Bool) (reason : Option Nat)
  | unlayoutOp (unlayoutCallbackResult : Bool)
  deriving Repr

def applyOp : ROp → Resource → Resource
  | .buildDoneOp, r => buildDone r
  | .measureOp env el, r => measure env el r
  | .layoutScheduledOp, r => layoutScheduled r
  | .layoutCanceledOp, r => layoutCanceled r
  | .startLayoutOp el, r => (startLayout el r).1
  | .layoutCompleteOp s e, r => layoutComplete s e r
  | .unlayoutOp u, r => unlayout u r

def applyOps (ops : List ROp) (r : Resource) : Resource :=
  ops.foldl (fun r op => applyOp op r) r

/-! ### `withinViewportMultiplier` -/

/-- The `number|boolean` multiplier accepted by
`Resource.withinViewportMultiplier`. -/
inductive RenderMultiplier where
  | bool (b : Bool)
  | num (q : ℚ)
  deriving DecidableEq, Repr

/-- `Resource.withinViewportMultiplier(multiplier)`, with the viewport rect,
the element's layout box (`getLayoutBox()`) and the scroll direction
(`1` = scrolling down, `-1` = scrolling up) supplied as inputs. -/
def withinViewportMultiplier (viewportBox layoutBox : LayoutRect)
    (scrollDirection : Int) : RenderMultiplier → Bool
  | .bool b => b
  | .num m =>
    let multiplier := max m 0
    if viewportBox.right < layoutBox.left ∨
        viewportBox.left > layoutBox.right then
      -- outside of viewport's x-axis
      false
    else if viewportBox.bottom < layoutBox.top then
      -- element is below viewport
      let distance := layoutBox.top - viewportBox.bottom
      let scrollPenalty : ℚ := if scrollDirection = -1 then 2 else 1
      decide (distance < viewportBox.height * multiplier / scrollPenalty)
    else if viewportBox.top > layoutBox.bottom then
      -- element is above viewport
      let distance := viewportBox.top - layoutBox.bottom
      let scrollPenalty : ℚ := if scrollDirection = 1 then 2 else 1
      decide (distance < viewportBox.height * multiplier / scrollPenalty)
    else
      -- element is in viewport
      true

/-- Horizontal-overlap requirement, in the spec's words: the element is
rejected outright when it is outside the viewport's x-axis. -/
def horizOverlaps (vp lb : LayoutRect) : Prop :=
  ¬ (vp.right < lb.left ∨ vp.left > lb.right)

instance (vp lb : LayoutRect) : Decidable (horizOverlaps vp lb) := by
  unfold horizOverlaps; infer_instance

/-- Vertical overlap with the viewport (the "element is in viewport" branch). -/
def vertOverlaps (vp lb : LayoutRect) : Prop :=
  ¬ vp.bottom < lb.top ∧ ¬ vp.top > lb.bottom

instance (vp lb : LayoutRect) : Decidable (vertOverlaps vp lb) := by
  unfold vertOverlaps; infer_instance

/-- The spec's "vertical distance outside the viewport": distance below, or
distance above, of a vertically-outside element. -/
def vertDistanceOutside (vp lb : LayoutRect) : ℚ :=
  if vp.bottom < lb.top then lb.top - vp.bottom
  else if vp.top > lb.bottom then vp.top - lb.bottom
  else 0

/-- The spec's scroll penalty: `2` when scrolling away from the element
(up while the element is below, down while the element is above), else `1`. -/
def scrollPenaltyOf (vp lb : LayoutRect) (dir : Int) : ℚ :=
  if vp.bottom < lb.top then (if dir = -1 then 2 else 1)
  else if vp.top > lb.bottom then (if dir = 1 then 2 else 1)
  else 1

/-! ### VideoEntry visibility (v1 `video-manager-impl.js`) -/

/-- A JavaScript number as consumed by the visibility computations: either a
finite rational or the non-finite `NaN` produced by a degenerate intersection
entry (every comparison against `NaN` is false). -/
inductive JsNum where
  | finite (q : ℚ)
  | nan
  deriving DecidableEq, Repr

/-- `isFiniteNumber` from `types.js`. -/
def isFiniteNumber : JsNum → Bool
  | .finite _ => true
  | .nan => false

/-- `VISIBILITY_PERCENT = 75` (v1). -/
def visibilityPercent : ℚ := 75

/-- Observable per-entry state of the v1 `VideoEntry` visibility logic.
`changedCalls` counts invocations of `videoVisibilityChanged_`;
`loadedChangedCalls` counts invocations of `loadedVideoVisibilityChanged_`
(the effectful visibility-change handling, a no-op until loaded). -/
structure VideoEntryV1 where
  loaded : Bool
  isVisible : Bool
  changedCalls : Nat
  loadedChangedCalls : Nat
  deriving DecidableEq, Repr

/-- `VideoEntry` constructor flags: not loaded, not visible. -/
def initVideoEntryV1 : VideoEntryV1 :=
  { loaded := false, isVisible := false, changedCalls := 0,
    loadedChangedCalls := 0 }

/-- `videoVisibilityChanged_()` (v1): delegates to
`loadedVideoVisibilityChanged_` only once loaded. -/
def videoVisibilityChanged (e : VideoEntryV1) : VideoEntryV1 :=
  let e1 := { e with changedCalls := e.changedCalls + 1 }
  if e1.loaded then
    { e1 with loadedChangedCalls := e1.loadedChangedCalls + 1 }
  else e1

/-- The measure phase of `updateVisibility(opt_forceVisible)` (v1): forced
visible when `opt_forceVisible == true`; otherwise
`visiblePercent = !isFiniteNumber(intersectionRatio) ? 0 :
intersectionRatio * 100` and `isVisible = visiblePercent >= 75`. -/
def computeVisibleV1 (optForceVisible : Option Bool) (ir : JsNum) : Bool :=
  if optForceVisible = some true then true
  else
    let visiblePercent : ℚ :=
      match ir with
      | .nan => 0
      | .finite q => q * 100
    decide (visibilityPercent ≤ visiblePercent)

/-- `updateVisibility(opt_forceVisible)` (v1): the measure phase recomputes
`isVisible_`, the mutate phase invokes `videoVisibilityChanged_` only when it
changed. -/
def updateVisibility (optForceVisible : Option Bool) (ir : JsNum)
    (e : VideoEntryV1) : VideoEntryV1 :=
  let wasVisible := e.isVisible
  let e1 := { e with isVisible := computeVisibleV1 optForceVisible ir }
  if e1.isVisible ≠ wasVisible then videoVisibilityChanged e1 else e1

/-- `videoLoaded()` (v1): sets `loaded_`, schedules `updateVisibility()` on
the vsync queue, and synchronously replays the pending pre-load visibility
(`if (this.isVisible_) loadedVideoVisibilityChanged_()`) — the check reads
`isVisible_` before the scheduled measure/mutate run. -/
def videoLoaded (ir : JsNum) (e : VideoEntryV1) : VideoEntryV1 :=
  let e1 := { e with loaded := true }
  let e2 :=
    if e1.isVisible then
      { e1 with loadedChangedCalls := e1.loadedChangedCalls + 1 }
    else e1
  updateVisibility none ir e2

/-! ### VideoEntry (v2 `video-manager-v2-impl.js`) -/

/-- `VISIBILITY_RATIO = 0.75` (v2). -/
def visibilityRatioV2 : ℚ := 3 / 4

/-- The measure phase of `updateVisibility_(forceVisible)` (v2).  The source
computes `ratio = !isFiniteNumber(intersectionRatio) ? intersectionRatio : 0`
— a finite intersection ratio is replaced by `0` and a non-finite one is kept
— and then `isVisible_ = ratio >= VISIBILITY_RATIO` (false for `NaN`). -/
def computeVisibleV2 (forceVisible : Bool) (ir : JsNum) : Bool :=
  if forceVisible then true
  else
    let r : JsNum := if ¬ isFiniteNumber ir then ir else .finite 0
    match r with
    | .finite q => decide (visibilityRatioV2 ≤ q)
    | .nan => false

/-- `getPlayingState()` (v1, `video-manager-impl.js` line 872). -/
inductive PlayingStates where
  | PLAYING_MANUAL
  | PLAYING_AUTO
  | PAUSED
  deriving DecidableEq, Repr

def getPlayingState (isPlaying playCalledByAutoplay
    userInteractedWithAutoPlay : Bool) : PlayingStates :=
  if ¬ isPlaying then .PAUSED
  else if isPlaying ∧ playCalledByAutoplay ∧ ¬ userInteractedWithAutoPlay then
    .PLAYING_AUTO
  else .PLAYING_MANUAL

/-- `getPlayingState()` (v2, `video-manager-v2-impl.js` line 1143): the
`PLAYING_AUTO` branch is commented out in the source, so a playing video is
always classified `PLAYING_MANUAL`. -/
def getPlayingStateV2 (isPlaying : Bool) : PlayingStates :=
  if ¬ isPlaying then .PAUSED
  else .PLAYING_MANUAL

/-! ### LazyObservable (v2) -/

/-- State of a `LazyObservable`.  `handlers` is the underlying `Observable`'s
handler list (handlers named by numbers; `Observable.add`/`getHandlerCount`
are modelled from the spec: a multi-subscriber list with removal).
`installGateUsed` is the `once()` gate around `installListenerFn_`;
`uninstallerPresent` models the captured `uninstallListener_`;
`installCount`/`uninstallCount` count invocations of the injected installer
and of the captured uninstaller. -/
structure LazyObservable where
  handlers : List Nat
  installGateUsed : Bool
  uninstallerPresent : Bool
  installCount : Nat
  uninstallCount : Nat
  deriving DecidableEq, Repr

/-- A freshly constructed `LazyObservable`. -/
def LazyObservable.init : LazyObservable :=
  { handlers := [], installGateUsed := false, uninstallerPresent := false,
    installCount := 0, uninstallCount := 0 }

/-- `observe(handler)`: adds the handler, then runs the once-guarded
installer (which captures the uninstaller). -/
def LazyObservable.observe (h : Nat) (o : LazyObservable) : LazyObservable :=
  let o1 := { o with handlers := h :: o.handlers }
  if o1.installGateUsed then o1
  else
    { o1 with installGateUsed := true,
              uninstallerPresent := true,
              installCount := o1.installCount + 1 }

/-- The unlistener returned by `observe`: removes the handler from the
observable, then `maybeUninstall_()` — when the handler count has dropped to
zero it invokes the captured uninstaller and resets the install-once gate. -/
def LazyObservable.unobserve (h : Nat) (o : LazyObservable) : LazyObservable :=
  let o1 := { o with handlers := o.handlers.erase h }
  if 0 < o1.handlers.length then o1
  else
    { o1 with installGateUsed := false,
              uninstallerPresent := false,
              uninstallCount := o1.uninstallCount + 1 }

/-- `observe` for a whole list of handlers in order. -/
def LazyObservable.observeAll (hs : List Nat) (o : LazyObservable) :
    LazyObservable :=
  hs.foldl (fun o h => o.observe h) o

/-! ## Sample values used by concrete instances and witnesses -/

/-- A viewport of height 1000 (the claims' example viewport). -/
def vpEx : LayoutRect := ⟨0, 0, 400, 1000⟩

/-- A layout box directly below `vpEx` by 400px. -/
def lbBelow400 : LayoutRect := ⟨0, 1400, 400, 100⟩

/-- A layout box directly below `vpEx` by 600px. -/
def lbBelow600 : LayoutRect := ⟨0, 1600, 400, 100⟩

/-- An upgraded element that does not request relayout. -/
def elPlain : AmpElement :=
  { isUpgraded := true, isRelayoutNeeded := false, layoutCallback := .ok () }

/-- An upgraded element that declares relayout needed. -/
def elRelayout : AmpElement :=
  { isUpgraded := true, isRelayoutNeeded := true, layoutCallback := .ok () }

/-- A built and measured resource ready for layout. -/
def rReady : Resource :=
  { mkResource true with state := .READY_FOR_LAYOUT,
                         initialLayoutBox := some initialBox }

/-- A resource with a layout in flight (`layoutPromise_` set). -/
def rInFlight : Resource :=
  { mkResource true with state := .LAYOUT_SCHEDULED, layoutCount := 1,
                         layoutPromise := some 0, nextPromiseId := 1,
                         initialLayoutBox := some initialBox }

/-- A resource that has completed one layout successfully. -/
def rComplete : Resource :=
  { mkResource true with state := .LAYOUT_COMPLETE, layoutCount := 1,
                         initialLayoutBox := some initialBox,
                         loadResolverPresent := false, loadResolveCalls := 1,
                         loadedOnce := true }

/-- A measure environment whose fresh box differs from `initialBox` in `top`. -/
def envTopChanged : MeasureEnv :=
  { newBox := ⟨-10000, 0, 0, 0⟩, isFixedNow := false, scrollLeft := 0,
    scrollTop := 0, placeholderBlocked := false }

/-- A measure environment whose fresh box differs from `initialBox` only in
`left`. -/
def envLeftChanged : MeasureEnv :=
  { newBox := ⟨5, -10000, 0, 0⟩, isFixedNow := false, scrollLeft := 0,
    scrollTop := 0, placeholderBlocked := false }

/-- A previously laid-out resource re-scheduled for layout. -/
def rReadyAgain : Resource := { rReady with layoutCount := 1 }

/-! ## C1 — `withinViewportMultiplier` -/

/-- C1 (counterexample): the claim asserts that with viewport height 1000, an
element 400px below the viewport and multiplier 1, the element is *rejected*
when scrolling away from it ("400 ≥ 500").  On the code the scroll penalty
halves the threshold to `1000 * 1 / 2 = 500` and `400 < 500`, so the element
is *admitted* (`-1` is scrolling away from an element below the viewport). -/
theorem withinViewportMultiplier_away400_admits :
    withinViewportMultiplier vpEx lbBelow400 (-1) (RenderMultiplier.num 1)
      = true ∧ (400 : ℚ) < 1000 * 1 / 2 := by
  constructor
  · norm_num [withinViewportMultiplier, vpEx, lbBelow400, LayoutRect.right,
      LayoutRect.bottom]
  · norm_num

/-- C1 (amended): a numeric multiplier admits the element iff its layout box
horizontally overlaps the viewport and either it also vertically overlaps the
viewport, or its vertical distance outside the viewport is less than
`viewportHeight * max(multiplier, 0) / scrollPenalty`, with `scrollPenalty =
2` when scrolling away from the element and `1` otherwise.  With viewport
height 1000 and multiplier 1: an element 400px below is admitted both when
scrolling toward it (400 < 1000) and when scrolling away (400 < 500); an
element 600px below is admitted when scrolling toward it (600 < 1000) and
rejected when scrolling away (600 ≥ 500).  A boolean multiplier is returned
unchanged. -/
theorem withinViewportMultiplier_spec :
    (∀ (vp lb : LayoutRect) (dir : Int) (m : ℚ),
      withinViewportMultiplier vp lb dir (.num m) = true ↔
        (horizOverlaps vp lb ∧
          (vertOverlaps vp lb ∨
            vertDistanceOutside vp lb <
              vp.height * max m 0 / scrollPenaltyOf vp lb dir))) ∧
    (∀ (vp lb : LayoutRect) (dir : Int) (b : Bool),
      withinViewportMultiplier vp lb dir (.bool b) = b) ∧
    withinViewportMultiplier vpEx lbBelow400 1 (.num 1) = true ∧
    withinViewportMultiplier vpEx lbBelow400 (-1) (.num 1) = true ∧
    withinViewportMultiplier vpEx lbBelow600 1 (.num 1) = true ∧
    withinViewportMultiplier vpEx lbBelow600 (-1) (.num 1) = false := by
  refine ⟨fun vp lb dir m => ?_, fun vp lb dir b => rfl, ?_, ?_, ?_, ?_⟩
  · simp only [withinViewportMultiplier, horizOverlaps, vertOverlaps,
      vertDistanceOutside, scrollPenaltyOf]
    split_ifs with h1 h2 h3 <;> simp_all [decide_eq_true_iff]
  all_goals
    norm_num [withinViewportMultiplier, vpEx, lbBelow400, lbBelow600,
      LayoutRect.right, LayoutRect.bottom]

/-! ## C2 — `startLayout` returns the cached in-flight promise -/

/-- Helper: with `layoutPromise_` set, `startLayout` returns it unchanged. -/
lemma startLayout_cached (el : AmpElement) (r : Resource) (p : Nat)
    (h : r.layoutPromise = some p) :
    startLayout el r = (r, .existing p, false) := by
  unfold startLayout
  rw [h]

/-- Helper: a call that starts a fresh layout stores the promise it returns. -/
lemma startLayout_inFlight_sets (el : AmpElement) (r r1 : Resource)
    (p : Nat) (c : Bool) (h : startLayout el r = (r1, .inFlight p, c)) :
    r1.layoutPromise = some p := by
  unfold startLayout at h
  rcases hr : r.layoutPromise with _ | q
  · rw [hr] at h
    split_ifs at h with h1 h2 h3
    · simp at h
    · simp at h
    · simp at h
    · rcases hcb : el.layoutCallback with e | u
      · rw [hcb] at h; simp at h
      · rw [hcb] at h
        simp only [Prod.mk.injEq] at h
        obtain ⟨hr1, hres, -⟩ := h
        cases hres
        subst hr1
        rfl
  · rw [hr] at h
    simp at h

/-- C2: while a layout is in flight (`layoutPromise_` non-null) every
`startLayout()` call returns that same cached promise instance, leaves the
resource untouched and does not invoke `layoutCallback`; in particular the
second of two back-to-back `startLayout()` calls returns the first call's
promise without invoking the element's layout callback again. -/
theorem startLayout_inflight_idempotent :
    (∀ (el : AmpElement) (r : Resource) (p : Nat),
      r.layoutPromise = some p → startLayout el r = (r, .existing p, false)) ∧
    (∀ (el : AmpElement) (r r1 : Resource) (p : Nat) (c : Bool),
      startLayout el r = (r1, .inFlight p, c) →
      startLayout el r1 = (r1, .existing p, false)) :=
  ⟨startLayout_cached,
   fun el r r1 p c h =>
     startLayout_cached el r1 p (startLayout_inFlight_sets el r r1 p c h)⟩

/-- The resource produced by a first `startLayout` on `rReady`. -/
def rAfterStart : Resource :=
  { rReady with layoutCount := 1, state := .LAYOUT_SCHEDULED,
                layoutPromise := some 0, nextPromiseId := 1 }

/-- C2 (witness): concrete instances of both conjuncts. -/
theorem startLayout_inflight_idempotent_witness :
    startLayout elPlain rInFlight = (rInFlight, .existing 0, false) ∧
    startLayout elPlain rAfterStart = (rAfterStart, .existing 0, false) :=
  ⟨startLayout_inflight_idempotent.1 elPlain rInFlight 0 rfl,
   startLayout_inflight_idempotent.2 elPlain rReady rAfterStart 0 true
     (by decide)⟩

/-! ## C3 — state monotonicity -/

/-- Helper: field values of `layoutComplete`. -/
lemma layoutComplete_fields (s : Bool) (e : Option Nat) (r : Resource) :
    (layoutComplete s e r).layoutPromise = none ∧
    (layoutComplete s e r).state =
      (if s then ResourceState.LAYOUT_COMPLETE else .LAYOUT_FAILED) ∧
    (layoutComplete s e r).lastLayoutError = e ∧
    (layoutComplete s e r).loadedOnce = true := by
  unfold layoutComplete
  split_ifs <;> simp

/-- Helper: the state after `startLayout` is the old state, `LAYOUT_COMPLETE`,
or `LAYOUT_SCHEDULED` reached from a non-terminal state. -/
lemma startLayout_state_cases (el : AmpElement) (r : Resource) :
    (startLayout el r).1.state = r.state ∨
    (startLayout el r).1.state = .LAYOUT_COMPLETE ∨
    ((startLayout el r).1.state = .LAYOUT_SCHEDULED ∧
      r.state ≠ .LAYOUT_COMPLETE ∧ r.state ≠ .LAYOUT_FAILED) := by
  unfold startLayout
  rcases hp : r.layoutPromise with _ | p
  · split_ifs with h1 h2 h3
    · left; rfl
    · left; rfl
    · right; left; rfl
    · rcases hcb : el.layoutCallback with e | u
      · right; right; exact ⟨rfl, h1, h2⟩
      · right; right; exact ⟨rfl, h1, h2⟩
  · left; rfl

lemma stateRank_le_four (st : ResourceState) : stateRank st ≤ 4 := by
  cases st <;> decide

/-- The operations the claim exempts (`layoutCanceled`, `unlayout`) together
with `measure`, which the code also allows to move the state backwards. -/
def isResetOp : ROp → Bool
  | .measureOp _ _ => true
  | .layoutCanceledOp => true
  | .unlayoutOp _ => true
  | _ => false

/-- The scheduler's call protocol: the build-success callback runs on a
not-yet-built resource and `layoutScheduled` is applied to a resource that
was picked for layout while `READY_FOR_LAYOUT`; the remaining operations are
unconstrained. -/
def opProtocol : ROp → Resource → Prop
  | .buildDoneOp, r => r.state = .NOT_BUILT
  | .layoutScheduledOp, r => r.state = .READY_FOR_LAYOUT
  | _, _ => True

/-- C3 (counterexample): `measure()` — which is neither `layoutCanceled()`
nor `unlayout()` — moves a `LAYOUT_COMPLETE` resource backwards to
`READY_FOR_LAYOUT` when the box's `top` changed and the element declares
relayout needed, so the state order is violated and the terminal state is
left without an explicit unlayout. -/
theorem measure_regresses_from_complete :
    rComplete.state = ResourceState.LAYOUT_COMPLETE ∧
    stateRank (applyOp (ROp.measureOp envTopChanged elRelayout) rComplete).state
      < stateRank rComplete.state := by
  refine ⟨rfl, ?_⟩
  decide

/-- C3 (amended): under the scheduler's call protocol, every operation other
than `layoutCanceled()`, `unlayout()` and `measure()` never moves the state
backwards in the order `NOT_BUILT < NOT_LAID_OUT < READY_FOR_LAYOUT <
LAYOUT_SCHEDULED < {LAYOUT_COMPLETE, LAYOUT_FAILED}`, and keeps
`LAYOUT_COMPLETE`/`LAYOUT_FAILED` terminal; `measure()` may additionally
return any built resource — including a terminal one — to
`READY_FOR_LAYOUT` when the box's top/width/height changed and the element
declares relayout needed. -/
theorem state_monotone_except_resets :
    ∀ (op : ROp) (r : Resource), isResetOp op = false → opProtocol op r →
      stateRank r.state ≤ stateRank (applyOp op r).state ∧
      ((r.state = .LAYOUT_COMPLETE ∨ r.state = .LAYOUT_FAILED) →
        ((applyOp op r).state = .LAYOUT_COMPLETE ∨
          (applyOp op r).state = .LAYOUT_FAILED)) := by
  intro op r hex hpr
  cases op with
  | measureOp env el => simp [isResetOp] at hex
  | layoutCanceledOp => simp [isResetOp] at hex
  | unlayoutOp u => simp [isResetOp] at hex
  | buildDoneOp =>
    have hst : r.state = .NOT_BUILT := hpr
    refine ⟨?_, ?_⟩
    · simp only [applyOp, buildDone, hst]
      split_ifs <;> simp [stateRank]
    · intro hterm
      rw [hst] at hterm
      rcases hterm with h | h <;> exact absurd h (by decide)
  | layoutScheduledOp =>
    have hst : r.state = .READY_FOR_LAYOUT := hpr
    refine ⟨?_, ?_⟩
    · simp [applyOp, layoutScheduled, hst, stateRank]
    · intro hterm
      rw [hst] at hterm
      rcases hterm with h | h <;> exact absurd h (by decide)
  | startLayoutOp el =>
    rcases startLayout_state_cases el r with h | h | ⟨h, hc, hf⟩
    · simp only [applyOp] at *
      rw [h]
      exact ⟨le_refl _, fun ht => ht⟩
    · simp only [applyOp] at *
      rw [h]
      exact ⟨stateRank_le_four _, fun _ => Or.inl rfl⟩
    · simp only [applyOp] at *
      rw [h]
      refine ⟨?_, ?_⟩
      · cases hs : r.state <;> simp_all [stateRank]
      · intro hterm
        rcases hterm with ht | ht
        · exact absurd ht hc
        · exact absurd ht hf
  | layoutCompleteOp s e =>
    have hst := (layoutComplete_fields s e r).2.1
    simp only [applyOp]
    refine ⟨?_, fun _ => ?_⟩
    · rw [hst]
      cases s <;> simpa [stateRank] using stateRank_le_four r.state
    · rw [hst]
      cases s <;> simp

/-- C3 (witness): the amended theorem at two concrete operations — a
successful completion on a scheduled resource and `layoutScheduled` on a
ready resource. -/
theorem state_monotone_except_resets_witness :
    (stateRank rAfterStart.state ≤
      stateRank (applyOp (ROp.layoutCompleteOp true none) rAfterStart).state) ∧
    (stateRank rReady.state ≤
      stateRank (applyOp ROp.layoutScheduledOp rReady).state) :=
  ⟨(state_monotone_except_resets (ROp.layoutCompleteOp true none) rAfterStart
      rfl trivial).1,
   (state_monotone_except_resets ROp.layoutScheduledOp rReady rfl rfl).1⟩

/-! ## C4 — layout failure is captured and re-surfaced without retry -/

/-- C4: when the layout callback rejects with reason `e`, the completion
handler stores exactly that reason in `lastLayoutError_`, moves the state to
`LAYOUT_FAILED`, and every subsequent `startLayout()` returns a promise
rejected with the stored reason without invoking the layout callback again
and without touching the resource. -/
theorem layout_failure_captured_no_retry :
    ∀ (el : AmpElement) (r : Resource) (e : Nat),
      (layoutComplete false (some e) r).lastLayoutError = some e ∧
      (layoutComplete false (some e) r).state = .LAYOUT_FAILED ∧
      startLayout el (layoutComplete false (some e) r) =
        (layoutComplete false (some e) r, .rejected (some e), false) := by
  intro el r e
  obtain ⟨hp, hs, he, -⟩ := layoutComplete_fields false (some e) r
  have hs' : (layoutComplete false (some e) r).state = .LAYOUT_FAILED := by
    simpa using hs
  refine ⟨he, hs', ?_⟩
  unfold startLayout
  rw [hp]
  simp [hs', he]

/-! ## C10 — the one-time load promise -/

/-- Invariant tying the presence of the load-promise resolver to the number
of times it has been invoked. -/
def loadInv (r : Resource) : Prop :=
  (r.loadResolverPresent = true → r.loadResolveCalls = 0) ∧
  r.loadResolveCalls ≤ 1

lemma loadInv_congr {a r : Resource}
    (h1 : a.loadResolverPresent = r.loadResolverPresent)
    (h2 : a.loadResolveCalls = r.loadResolveCalls) (h : loadInv r) :
    loadInv a := by
  unfold loadInv at *
  rw [h1, h2]
  exact h

lemma startLayout_load_fields (el : AmpElement) (r : Resource) :
    (startLayout el r).1.loadResolverPresent = r.loadResolverPresent ∧
    (startLayout el r).1.loadResolveCalls = r.loadResolveCalls := by
  unfold startLayout
  rcases hp : r.layoutPromise with _ | p
  · split_ifs
    · exact ⟨rfl, rfl⟩
    · exact ⟨rfl, rfl⟩
    · exact ⟨rfl, rfl⟩
    · rcases hcb : el.layoutCallback with e | u
      · exact ⟨rfl, rfl⟩
      · exact ⟨rfl, rfl⟩
  · exact ⟨rfl, rfl⟩

lemma applyOp_preserves_loadInv (op : ROp) (r : Resource) (h : loadInv r) :
    loadInv (applyOp op r) := by
  cases op with
  | buildDoneOp => exact h
  | measureOp env el =>
    refine loadInv_congr ?_ ?_ h <;>
      · simp only [applyOp, measure]
        split_ifs <;> rfl
  | layoutScheduledOp => exact h
  | layoutCanceledOp => exact h
  | startLayoutOp el =>
    exact loadInv_congr (startLayout_load_fields el r).1
      (startLayout_load_fields el r).2 h
  | unlayoutOp u =>
    refine loadInv_congr ?_ ?_ h <;>
      · simp only [applyOp, unlayout]
        split_ifs <;> rfl
  | layoutCompleteOp s e =>
    simp only [applyOp, layoutComplete]
    by_cases hrp : r.loadResolverPresent = true
    · rw [if_pos hrp]
      refine ⟨fun hx => by simp at hx, ?_⟩
      have := h.1 hrp
      simp [loadInv, this]
    · rw [if_neg hrp]
      exact h

lemma applyOps_preserves_loadInv (ops : List ROp) (r : Resource)
    (h : loadInv r) : loadInv (applyOps ops r) := by
  induction ops generalizing r with
  | nil => exact h
  | cons op ops ih => exact ih _ (applyOp_preserves_loadInv op r h)

/-- C10: `layoutComplete_` resolves the one-time load promise before
branching on success — for either success value, a still-present resolver is
invoked exactly once more and then cleared; `unlayout()` never recreates the
resolver; and along every sequence of lifecycle operations from the
constructor the resolver is invoked at most once. -/
theorem loadedOnce_resolved_exactly_once :
    (∀ (r : Resource) (success : Bool) (reason : Option Nat),
      r.loadResolverPresent = true →
        (layoutComplete success reason r).loadResolveCalls =
          r.loadResolveCalls + 1 ∧
        (layoutComplete success reason r).loadResolverPresent = false) ∧
    (∀ (u : Bool) (r : Resource),
      (unlayout u r).loadResolverPresent = r.loadResolverPresent) ∧
    (∀ (elementIsBuilt : Bool) (ops : List ROp),
      (applyOps ops (mkResource elementIsBuilt)).loadResolveCalls ≤ 1) := by
  refine ⟨?_, ?_, ?_⟩
  · intro r s e hrp
    unfold layoutComplete
    rw [if_pos hrp]
    exact ⟨rfl, rfl⟩
  · intro u r
    unfold unlayout
    split_ifs <;> rfl
  · intro b ops
    refine (applyOps_preserves_loadInv ops (mkResource b) ?_).2
    exact ⟨fun _ => rfl, Nat.zero_le 1⟩

/-- C10 (witness): a fresh resource's resolver fires exactly once on a
successful completion, and a failure–unlayout–success sequence still
resolves at most once. -/
theorem loadedOnce_resolved_exactly_once_witness :
    ((layoutComplete true none (mkResource true)).loadResolveCalls =
        (mkResource true).loadResolveCalls + 1 ∧
      (layoutComplete true none (mkResource true)).loadResolverPresent =
        false) ∧
    (applyOps [ROp.layoutCompleteOp false (some 3), ROp.unlayoutOp true,
        ROp.layoutCompleteOp true none]
      (mkResource true)).loadResolveCalls ≤ 1 :=
  ⟨loadedOnce_resolved_exactly_once.1 (mkResource true) true none rfl,
   loadedOnce_resolved_exactly_once.2.2 true
     [ROp.layoutCompleteOp false (some 3), ROp.unlayoutOp true,
      ROp.layoutCompleteOp true none]⟩

/-! ## C7 — when `measure` makes a resource ready for layout -/

/-- Helper: the state computed by `measure`, extracted from the record. -/
lemma measure_state (env : MeasureEnv) (el : AmpElement) (r : Resource) :
    (measure env el r).state =
      if env.placeholderBlocked then r.state
      else if r.state = .NOT_LAID_OUT ∨
          r.layoutBox.top ≠ (measuredBox env).top ∨
          r.layoutBox.width ≠ (measuredBox env).width ∨
          r.layoutBox.height ≠ (measuredBox env).height then
        if el.isUpgraded ∧ r.state ≠ .NOT_BUILT ∧
            (r.state = .NOT_LAID_OUT ∨ el.isRelayoutNeeded) then
          ResourceState.READY_FOR_LAYOUT
        else r.state
      else r.state := by
  simp only [measure]
  split_ifs <;> rfl

/-- C7: `measure()` moves the state to `READY_FOR_LAYOUT` only if (the state
was `NOT_LAID_OUT`, or the box's top, width or height changed) and the
element is upgraded and (the state was `NOT_LAID_OUT` or the element
declares relayout needed); and when top, width and height are all unchanged
(so at most `left` changed) on a resource past `NOT_LAID_OUT`, the state is
untouched — a `left`-only change never triggers re-layout. -/
theorem measure_ready_for_layout_conditions :
    (∀ (env : MeasureEnv) (el : AmpElement) (r : Resource),
      r.state ≠ .READY_FOR_LAYOUT →
      (measure env el r).state = .READY_FOR_LAYOUT →
        (r.state = .NOT_LAID_OUT ∨
          r.layoutBox.top ≠ (measuredBox env).top ∨
          r.layoutBox.width ≠ (measuredBox env).width ∨
          r.layoutBox.height ≠ (measuredBox env).height) ∧
        el.isUpgraded = true ∧
        (r.state = .NOT_LAID_OUT ∨ el.isRelayoutNeeded = true)) ∧
    (∀ (env : MeasureEnv) (el : AmpElement) (r : Resource),
      r.layoutBox.top = (measuredBox env).top →
      r.layoutBox.width = (measuredBox env).width →
      r.layoutBox.height = (measuredBox env).height →
      r.state ≠ .NOT_LAID_OUT →
      (measure env el r).state = r.state) := by
  constructor
  · intro env el r hne h
    rw [measure_state] at h
    split_ifs at h with hb hcond hinner
    · exact absurd h hne
    · exact ⟨hcond, by simpa using hinner.1, by simpa using hinner.2.2⟩
    · exact absurd h hne
    · exact absurd h hne
  · intro env el r ht hw hh hs
    rw [measure_state]
    split_ifs with hb hcond hinner
    · rfl
    · rcases hcond with h | h | h | h
      · exact absurd h hs
      · exact absurd ht h
      · exact absurd hw h
      · exact absurd hh h
    · rfl
    · rfl

/-- C7 (witness): both conjuncts at concrete inputs — a top-change measure on
a completed relayout-needing resource, and a left-only change that leaves the
state alone. -/
theorem measure_ready_for_layout_conditions_witness :
    ((rComplete.state = ResourceState.NOT_LAID_OUT ∨
        rComplete.layoutBox.top ≠ (measuredBox envTopChanged).top ∨
        rComplete.layoutBox.width ≠ (measuredBox envTopChanged).width ∨
        rComplete.layoutBox.height ≠ (measuredBox envTopChanged).height) ∧
      elRelayout.isUpgraded = true ∧
      (rComplete.state = ResourceState.NOT_LAID_OUT ∨
        elRelayout.isRelayoutNeeded = true)) ∧
    (measure envLeftChanged elRelayout rComplete).state = rComplete.state :=
  ⟨measure_ready_for_layout_conditions.1 envTopChanged elRelayout rComplete
     (by decide) (by decide),
   measure_ready_for_layout_conditions.2 envLeftChanged elRelayout rComplete
     (by decide) (by decide) (by decide) (by decide)⟩

/-! ## C8 — `startLayout` after a successful layout -/

/-- C8 (counterexample): the claim says a resource that has completed a
layout successfully invokes the layout callback again on a subsequent
`startLayout()` when `isRelayoutNeeded()` is true.  On the code, a resource
still in `LAYOUT_COMPLETE` short-circuits to a resolved promise without
invoking the callback (third component `false`) even though
`elRelayout.isRelayoutNeeded = true`. -/
theorem startLayout_complete_skips_counterexample :
    elRelayout.isRelayoutNeeded = true ∧
    startLayout elRelayout rComplete = (rComplete, .resolved, false) :=
  ⟨rfl, by decide⟩

/-- C8 (amended): while a successfully laid-out resource is still in
`LAYOUT_COMPLETE`, `startLayout()` resolves immediately without invoking the
layout callback, regardless of `isRelayoutNeeded()`.  Once the resource has
left the terminal states (e.g. a re-measure moved it back to
`READY_FOR_LAYOUT`), a new `startLayout()` still resolves immediately
without invoking the layout callback when `isRelayoutNeeded()` is false, and
invokes the layout callback again when `isRelayoutNeeded()` is true. -/
theorem startLayout_after_complete_spec :
    (∀ (el : AmpElement) (r : Resource), r.layoutPromise = none →
      r.state = .LAYOUT_COMPLETE → startLayout el r = (r, .resolved, false)) ∧
    (∀ (el : AmpElement) (r : Resource), r.layoutPromise = none →
      r.state ≠ .LAYOUT_COMPLETE → r.state ≠ .LAYOUT_FAILED →
      0 < r.layoutCount → el.isRelayoutNeeded = false →
      startLayout el r =
        ({ r with state := .LAYOUT_COMPLETE }, .resolved, false)) ∧
    (∀ (el : AmpElement) (r : Resource), r.layoutPromise = none →
      r.state ≠ .LAYOUT_COMPLETE → r.state ≠ .LAYOUT_FAILED →
      el.isRelayoutNeeded = true → (startLayout el r).2.2 = true) := by
  refine ⟨?_, ?_, ?_⟩
  · intro el r hp hs
    unfold startLayout
    rw [hp]
    simp [hs]
  · intro el r hp hc hf hcount hrel
    unfold startLayout
    rw [hp]
    simp [hc, hf, hcount, hrel]
  · intro el r hp hc hf hrel
    unfold startLayout
    rw [hp]
    rw [if_neg hc, if_neg hf, if_neg (by simp [hrel])]
    rcases hcb : el.layoutCallback with e | u <;> rfl

/-- C8 (witness): all three conjuncts at concrete inputs. -/
theorem startLayout_after_complete_spec_witness :
    startLayout elRelayout rComplete = (rComplete, .resolved, false) ∧
    startLayout elPlain rReadyAgain =
      ({ rReadyAgain with state := .LAYOUT_COMPLETE }, .resolved, false) ∧
    (startLayout elRelayout rReadyAgain).2.2 = true :=
  ⟨startLayout_after_complete_spec.1 elRelayout rComplete rfl rfl,
   startLayout_after_complete_spec.2.1 elPlain rReadyAgain rfl (by decide)
     (by decide) (by decide) rfl,
   startLayout_after_complete_spec.2.2 elRelayout rReadyAgain rfl (by decide)
     (by decide) rfl⟩

/-! ## C5 — `getPlayingState` -/

/-- C5: the v1 `getPlayingState()` is the claimed pure tri-state function of
`(isPlaying, playCalledByAutoplay, userInteractedWithAutoPlay)`; but in the
v2 source the `PLAYING_AUTO` branch is commented out, so the v2 entry
returns `PLAYING_MANUAL` at the claim's `PLAYING_AUTO` input
`(true, true, false)`. -/
theorem getPlayingState_spec_v2_divergence :
    (∀ a u : Bool, getPlayingState false a u = .PAUSED) ∧
    (∀ a u : Bool, getPlayingState true a u =
      if a = true ∧ u = false then .PLAYING_AUTO else .PLAYING_MANUAL) ∧
    getPlayingStateV2 true = .PLAYING_MANUAL ∧
    PlayingStates.PLAYING_MANUAL ≠ PlayingStates.PLAYING_AUTO := by
  refine ⟨fun a u => rfl, fun a u => ?_, rfl, by decide⟩
  cases a <;> cases u <;> rfl

/-! ## C6 — `updateVisibility` -/

/-- Helper: `updateVisibility` stores exactly the measured visibility. -/
lemma updateVisibility_isVisible (f : Option Bool) (ir : JsNum)
    (e : VideoEntryV1) :
    (updateVisibility f ir e).isVisible = computeVisibleV1 f ir := by
  simp only [updateVisibility, videoVisibilityChanged]
  split_ifs <;> rfl

/-- Helper: the v1 measured visibility is "forced, or a finite intersection
ratio of at least 0.75". -/
lemma computeVisibleV1_iff (f : Option Bool) (ir : JsNum) :
    computeVisibleV1 f ir = true ↔
      (f = some true ∨ ∃ q : ℚ, ir = .finite q ∧ 3 / 4 ≤ q) := by
  unfold computeVisibleV1 visibilityPercent
  split_ifs with hf
  · simp [hf]
  · cases ir with
    | nan => simp [hf]
    | finite q =>
      simp only [hf, decide_eq_true_iff, false_or]
      constructor
      · intro h
        exact ⟨q, rfl, by linarith⟩
      · rintro ⟨q2, hq2, h⟩
        cases hq2
        linarith

/-- C6: on the v1 entry, `updateVisibility` computes visibility true exactly
when force-visible is flagged or the intersection ratio is a finite number
at least 0.75; the entry is left entirely unchanged when the computed
visibility equals the previous one, the change callback fires exactly once
on a change, the loaded-visibility handling is a no-op until the video has
loaded, and `videoLoaded` replays a pending visible state exactly once.  But
the v2 `updateVisibility_` measure phase swaps the arms of its finiteness
guard (`!isFiniteNumber(r) ? r : 0`), so a fully visible video
(intersection ratio 1) is computed *not* visible, where v1 (and the claim)
compute visible. -/
theorem updateVisibility_spec_v2_divergence :
    (∀ (f : Option Bool) (ir : JsNum) (e : VideoEntryV1),
      (updateVisibility f ir e).isVisible = true ↔
        (f = some true ∨ ∃ q : ℚ, ir = .finite q ∧ 3 / 4 ≤ q)) ∧
    (∀ (f : Option Bool) (ir : JsNum) (e : VideoEntryV1),
      computeVisibleV1 f ir = e.isVisible → updateVisibility f ir e = e) ∧
    (∀ (f : Option Bool) (ir : JsNum) (e : VideoEntryV1),
      computeVisibleV1 f ir ≠ e.isVisible →
      (updateVisibility f ir e).changedCalls = e.changedCalls + 1) ∧
    (∀ (f : Option Bool) (ir : JsNum) (e : VideoEntryV1), e.loaded = false →
      (updateVisibility f ir e).loadedChangedCalls = e.loadedChangedCalls) ∧
    (∀ (ir : JsNum) (e : VideoEntryV1), e.loaded = false →
      e.isVisible = true → computeVisibleV1 none ir = true →
      (videoLoaded ir e).loaded = true ∧
      (videoLoaded ir e).loadedChangedCalls = e.loadedChangedCalls + 1) ∧
    computeVisibleV2 false (JsNum.finite 1) = false ∧
    computeVisibleV1 none (JsNum.finite 1) = true := by
  refine ⟨?_, ?_, ?_, ?_, ?_, ?_, ?_⟩
  · intro f ir e
    rw [updateVisibility_isVisible]
    exact computeVisibleV1_iff f ir
  · intro f ir e h
    simp [updateVisibility, h]
  · intro f ir e h
    simp only [updateVisibility, videoVisibilityChanged]
    rw [if_pos]
    · split_ifs <;> rfl
    · simpa using h
  · intro f ir e h
    simp only [updateVisibility, videoVisibilityChanged]
    split_ifs with h1 h2
    · simp [h] at h2
    · rfl
    · rfl
  · intro ir e hl hv hc
    simp only [videoLoaded, updateVisibility, videoVisibilityChanged, hv, hc]
    simp
  · norm_num [computeVisibleV2, isFiniteNumber, visibilityRatioV2]
  · norm_num [computeVisibleV1, visibilityPercent]

/-- A not-yet-loaded entry whose pre-load visibility is already true. -/
def eVisNotLoaded : VideoEntryV1 :=
  { loaded := false, isVisible := true, changedCalls := 1,
    loadedChangedCalls := 0 }

/-- C6 (witness): the hypothesis-bearing conjuncts at concrete entries. -/
theorem updateVisibility_spec_v2_divergence_witness :
    updateVisibility none .nan initVideoEntryV1 = initVideoEntryV1 ∧
    (updateVisibility (some true) .nan initVideoEntryV1).changedCalls =
      initVideoEntryV1.changedCalls + 1 ∧
    (updateVisibility (some true) .nan initVideoEntryV1).loadedChangedCalls =
      initVideoEntryV1.loadedChangedCalls ∧
    ((videoLoaded (.finite 1) eVisNotLoaded).loaded = true ∧
      (videoLoaded (.finite 1) eVisNotLoaded).loadedChangedCalls =
        eVisNotLoaded.loadedChangedCalls + 1) :=
  ⟨updateVisibility_spec_v2_divergence.2.1 none .nan initVideoEntryV1 rfl,
   updateVisibility_spec_v2_divergence.2.2.1 (some true) .nan
     initVideoEntryV1 (by decide),
   updateVisibility_spec_v2_divergence.2.2.2.1 (some true) .nan
     initVideoEntryV1 rfl,
   updateVisibility_spec_v2_divergence.2.2.2.2.1 (.finite 1) eVisNotLoaded
     rfl rfl (by simp [computeVisibleV1, visibilityPercent]; decide)⟩

/-! ## C9 — `LazyObservable` installs exactly once per episode -/

lemma observe_gate_used (a : Nat) (o : LazyObservable)
    (h : o.installGateUsed = true) :
    (o.observe a).installCount = o.installCount ∧
    (o.observe a).installGateUsed = true := by
  simp only [LazyObservable.observe]
  rw [if_pos h]
  exact ⟨rfl, h⟩

lemma observeAll_gate_used (hs : List Nat) (o : LazyObservable)
    (h : o.installGateUsed = true) :
    (LazyObservable.observeAll hs o).installCount = o.installCount ∧
    (LazyObservable.observeAll hs o).installGateUsed = true := by
  induction hs generalizing o with
  | nil => exact ⟨rfl, h⟩
  | cons a as ih =>
    obtain ⟨h1, h2⟩ := observe_gate_used a o h
    obtain ⟨h3, h4⟩ := ih (o.observe a) h2
    exact ⟨h3.trans h1, h4⟩

lemma observe_gate_fresh (a : Nat) (o : LazyObservable)
    (h : o.installGateUsed = false) :
    (o.observe a).installCount = o.installCount + 1 ∧
    (o.observe a).installGateUsed = true := by
  simp only [LazyObservable.observe]
  rw [if_neg]
  · exact ⟨rfl, rfl⟩
  · simp [h]

/-- C9: starting from a fresh install gate, any non-empty run of consecutive
`observe()` calls (during which the handler count never drops to zero)
invokes the installer exactly once; when the last handler is removed the
captured uninstaller is invoked and the gate is reset, so a subsequent
`observe()` invokes the installer exactly once more. -/
theorem lazyObservable_install_once :
    (∀ (hs : List Nat) (o : LazyObservable), o.installGateUsed = false →
      hs ≠ [] →
      (LazyObservable.observeAll hs o).installCount = o.installCount + 1 ∧
      (LazyObservable.observeAll hs o).installGateUsed = true) ∧
    (∀ (o : LazyObservable) (h : Nat), o.handlers = [h] →
      (LazyObservable.unobserve h o).uninstallCount = o.uninstallCount + 1 ∧
      (LazyObservable.unobserve h o).installGateUsed = false ∧
      (LazyObservable.unobserve h o).uninstallerPresent = false) ∧
    (∀ (o : LazyObservable) (h h2 : Nat), o.handlers = [h] →
      (LazyObservable.observe h2 (LazyObservable.unobserve h o)).installCount
        = o.installCount + 1) := by
  refine ⟨?_, ?_, ?_⟩
  · intro hs o hg hne
    cases hs with
    | nil => exact absurd rfl hne
    | cons a as =>
      obtain ⟨h1, h2⟩ := observe_gate_fresh a o hg
      obtain ⟨h3, h4⟩ := observeAll_gate_used as (o.observe a) h2
      exact ⟨h3.trans h1, h4⟩
  · intro o h hh
    simp only [LazyObservable.unobserve]
    rw [hh]
    simp
  · intro o h h2 hh
    have hg : (LazyObservable.unobserve h o).installGateUsed = false := by
      simp only [LazyObservable.unobserve]
      rw [hh]
      simp
    have hcnt : (LazyObservable.unobserve h o).installCount =
        o.installCount := by
      simp only [LazyObservable.unobserve]
      rw [hh]
      simp
    obtain ⟨h1, -⟩ := observe_gate_fresh h2 (LazyObservable.unobserve h o) hg
    rw [h1, hcnt]

/-- A `LazyObservable` with a single handler and an installed listener. -/
def oSingle : LazyObservable :=
  { handlers := [5], installGateUsed := true, uninstallerPresent := true,
    installCount := 1, uninstallCount := 0 }

/-- C9 (witness): three observes from fresh install exactly once; draining a
single-handler observable uninstalls and resets the gate; resubscribing
installs exactly once more. -/
theorem lazyObservable_install_once_witness :
    ((LazyObservable.observeAll [1, 2, 3] LazyObservable.init).installCount =
        LazyObservable.init.installCount + 1 ∧
      (LazyObservable.observeAll [1, 2, 3]
        LazyObservable.init).installGateUsed = true) ∧
    ((LazyObservable.unobserve 5 oSingle).uninstallCount =
        oSingle.uninstallCount + 1 ∧
      (LazyObservable.unobserve 5 oSingle).installGateUsed = false ∧
      (LazyObservable.unobserve 5 oSingle).uninstallerPresent = false) ∧
    (LazyObservable.observe 7 (LazyObservable.unobserve 5 oSingle)).installCount
      = oSingle.installCount + 1 :=
  ⟨lazyObservable_install_once.1 [1, 2, 3] LazyObservable.init rfl
     (by decide),
   lazyObservable_install_once.2.1 oSingle 5 rfl,
   lazyObservable_install_once.2.2 oSingle 5 7 rfl⟩

end AmpModel
